import Mathlib

/-!
# Verification of the Squidgy conversational gateway core (src/backend/main.py)

Shallow embedding of the agent-matching engine, request de-duplication layer,
websocket duplicate suppression, streaming fan-out and the bounded parallel
orchestrator, with theorems settling the frozen claims about them.

Conventions of the embedding:
* Python floats (similarity scores, confidences, wall-clock seconds) are
  modelled as rationals (`ℚ`); the claims are about comparisons and maxima,
  not IEEE rounding.
* Python dicts keyed by strings are modelled as association lists preserving
  insertion order (matching CPython dict semantics).
* External collaborators (embedding service, similarity RPC, workflow engine,
  document store) are parameters of the model; upstream-exception paths are
  modelled only where a claim mentions them.
* String helpers (`lower`, `strip`, `split`, substring containment) follow
  Python semantics on ASCII text (the fixed pattern list is ASCII).
-/

namespace Squidgy

/-! ## Python string helpers -/

/-- Python whitespace characters recognised by `str.strip()` / `str.split()`. -/
def pyIsSpace (c : Char) : Bool :=
  c = ' ' || c = '\t' || c = '\n' || c = '\r' || c = '\x0b' || c = '\x0c'

/-- `str.strip()` on a character list: drop leading and trailing whitespace. -/
def pyStripList (l : List Char) : List Char :=
  ((l.dropWhile pyIsSpace).reverse.dropWhile pyIsSpace).reverse

/-- `str.lower()` (ASCII). -/
def pyLower (s : String) : String :=
  String.mk (s.toList.map Char.toLower)

/-- `str.strip()` on a string. -/
def pyStrip (s : String) : String :=
  String.mk (pyStripList s.toList)

/-- Does `text` start with `pat`? -/
def leadsWith : List Char → List Char → Bool
  | [], _ => true
  | _ :: _, [] => false
  | p :: ps, t :: ts => p == t && leadsWith ps ts

/-- Python substring containment `pat in text` (on char lists). -/
def containsSub (text pat : List Char) : Bool :=
  match text with
  | [] => pat.isEmpty
  | _ :: rest => leadsWith pat text || containsSub rest pat

/-- Number of whitespace-separated tokens, i.e. `len(s.split())`:
counts maximal runs of non-whitespace characters. -/
def tokenCountAux : List Char → Bool → Nat
  | [], _ => 0
  | c :: cs, inTok =>
    if pyIsSpace c then tokenCountAux cs false
    else (if inTok then 0 else 1) + tokenCountAux cs true

def tokenCount (l : List Char) : Nat := tokenCountAux l false

/-! ## Association-list helpers (CPython dict semantics) -/

def lookupA {α : Type} : List (String × α) → String → Option α
  | [], _ => none
  | (k, v) :: rest, key => if k = key then some v else lookupA rest key

/-- `d[key] = v`: overwrite in place if the key exists, else append
(CPython dicts preserve insertion order). -/
def setA {α : Type} : List (String × α) → String → α → List (String × α)
  | [], key, v => [(key, v)]
  | (k, w) :: rest, key, v =>
    if k = key then (k, v) :: rest else (k, w) :: setA rest key v

/-- `del d[key]`. -/
def removeA {α : Type} : List (String × α) → String → List (String × α)
  | [], _ => []
  | (k, w) :: rest, key => if k = key then rest else (k, w) :: removeA rest key

/-! ## Agent Matcher: `AgentMatcher.check_agent_match` (main.py lines 51-136)

The matcher's cache `self._cache` stores, under key
`f"agent_match_{agent_name}_{user_query}"`, a dict
`{'result': (match, confidence), 'timestamp': now}` with TTL 300 s. -/

/-- One matcher cache entry: the cached `(match, confidence)` pair and the
`datetime.now()` at which it was stored. -/
structure CamEntry where
  m : Bool
  c : ℚ
  ts : ℤ
deriving DecidableEq

/-- The external collaborators used by `check_agent_match` (document store and
embedding + similarity RPC), on its exception-free path:
`hasDocs agent` is whether `agent_documents` has a row for the agent
(`agent_check.data` nonempty); `bestSim agent query threshold` is the
similarity of the single best document returned by the
`match_agent_documents` RPC (`none` when `result.data` is empty). -/
structure CamUpstream where
  hasDocs : String → Bool
  bestSim : String → String → ℚ → Option ℚ

/-- The value produced by `return` in `check_agent_match`: the no-documents
path returns the bare boolean `False` (not a 2-tuple), every other path
returns a `(match, confidence)` pair.  Keeping the two shapes distinct is
essential: the function is annotated `-> tuple` and both call sites unpack
two values from it. -/
inductive CamReturn where
  | bare (b : Bool)
  | pair (m : Bool) (c : ℚ)
deriving DecidableEq

/-- Result of one `check_agent_match` call: the returned value, the matcher
cache afterwards, and how many embedding computations / similarity RPC
calls the call performed. -/
structure CamOut where
  ret : CamReturn
  cache : List (String × CamEntry)
  embedCalls : Nat
  simCalls : Nat
deriving DecidableEq

def camKey (agent query : String) : String :=
  "agent_match_" ++ agent ++ "_" ++ query

/-- The cache probe of `check_agent_match`: `self._cache.get(cache_key)`,
returned only when `(now - timestamp).total_seconds() < 300`. -/
def camFreshHit (cache : List (String × CamEntry)) (now : ℤ) (key : String) :
    Option (Bool × ℚ) :=
  match lookupA cache key with
  | some e => if now - e.ts < 300 then some (e.m, e.c) else none
  | none => none

/-- The fixed `basic_patterns` list of `check_agent_match` (lines 93-100). -/
def basicPatterns : List String :=
  ["hello", "hi", "hey", "good morning", "good afternoon", "good evening",
   "who are you", "what are you", "introduce yourself", "tell me about yourself",
   "what do you do", "what can you help with", "how can you help", "what services",
   "greetings", "salutations", "yo", "howdy", "how are you", "how do you do",
   "nice to meet you", "pleased to meet you", "what is this", "explain this",
   "help", "assistance", "support", "info", "information", "thanks", "thank you"]

/-- `is_basic` (line 103): a pattern occurs in the lowercased stripped query,
or the query splits into at most 3 whitespace-separated tokens. -/
def isBasic (queryLower : List Char) : Bool :=
  basicPatterns.any (fun p => containsSub queryLower p.toList) ||
    decide (tokenCount queryLower ≤ 3)

/-- The query as classified by `check_agent_match`:
`query_lower = user_query.lower().strip()` (line 102), then `is_basic`. -/
def camBasic (query : String) : Bool :=
  isBasic ((pyStrip (pyLower query)).toList)

/-- `confidence = result.data[0]['similarity'] if result.data else 0.0`
(line 106). -/
def camConf0 (up : CamUpstream) (agent query : String) (threshold : ℚ) : ℚ :=
  (up.bestSim agent query threshold).getD 0

/-- `match_result` on the compute path (lines 110-118): forced `True` for a
basic query, otherwise `len(result.data) > 0 and similarity >= threshold`. -/
def camMatch (up : CamUpstream) (agent query : String) (threshold : ℚ) : Bool :=
  if camBasic query then true
  else
    match up.bestSim agent query threshold with
    | some s => decide (threshold ≤ s)
    | none => false

/-- `confidence` on the compute path (lines 106-115): the best similarity
(0 if none), raised to `0.4` when the query is basic and it is below `0.4`. -/
def camConf (up : CamUpstream) (agent query : String) (threshold : ℚ) : ℚ :=
  if camBasic query then
    (if camConf0 up agent query threshold < 2/5 then 2/5
     else camConf0 up agent query threshold)
  else camConf0 up agent query threshold

/-- `AgentMatcher.check_agent_match` (lines 51-136), exception-free path.
Order of operations mirrors the source: document-existence check (bare
`False` when absent — line 63), fresh-cache probe (lines 66-69),
embedding + similarity RPC (lines 72-82, counted in
`embedCalls`/`simCalls`), basic-query classification, confidence floor
for basic queries, cache write with the current time (lines 121-124). -/
def checkAgentMatch (up : CamUpstream) (cache : List (String × CamEntry))
    (now : ℤ) (agent query : String) (threshold : ℚ) : CamOut :=
  if up.hasDocs agent = false then
    ⟨.bare false, cache, 0, 0⟩
  else
    match camFreshHit cache now (camKey agent query) with
    | some (m, c) => ⟨.pair m c, cache, 0, 0⟩
    | none =>
      ⟨.pair (camMatch up agent query threshold) (camConf up agent query threshold),
       setA cache (camKey agent query)
         ⟨camMatch up agent query threshold, camConf up agent query threshold, now⟩,
       1, 1⟩

/-! ## Agent Matcher: `AgentMatcher.find_best_agents` (main.py lines 138-181)

The model takes the candidate list returned by the `match_agents_by_similarity`
RPC as input: a list of `(agent_name, similarity)` rows, in the order the RPC
returned them; `none` models "any exception occurred" (embedding or RPC
failure), which the source catches and turns into the fallback.  The cache-hit
path (lines 142-145) returns a value produced by an earlier run of the same
computation and is not modelled separately. -/

/-- One pass of the `agent_scores` loop (lines 161-167): keep, per agent, the
maximum `similarity * 100` seen so far.  The dict is an insertion-ordered
association list, exactly like a CPython dict. -/
def fbaStep (acc : List (String × ℚ)) (item : String × ℚ) : List (String × ℚ) :=
  match lookupA acc item.1 with
  | none => acc ++ [(item.1, item.2 * 100)]
  | some old => if old < item.2 * 100 then setA acc item.1 (item.2 * 100) else acc

/-- The `agent_scores` dict after the whole loop. -/
def fbaAggregate (data : List (String × ℚ)) : List (String × ℚ) :=
  data.foldl fbaStep []

/-- Stable insertion of one scored agent into a list sorted by descending
score: the element goes after every element with a score `≥` its own, which
is exactly where Python's stable `sorted(..., reverse=True)` puts it. -/
def insertDesc (x : String × ℚ) : List (String × ℚ) → List (String × ℚ)
  | [] => [x]
  | y :: ys => if x.2 ≤ y.2 then y :: insertDesc x ys else x :: y :: ys

/-- `sorted(agent_scores.items(), key=lambda x: x[1], reverse=True)`:
a stable sort by descending score. -/
def sortDesc : List (String × ℚ) → List (String × ℚ)
  | [] => []
  | x :: xs => insertDesc x (sortDesc xs)

/-- `AgentMatcher.find_best_agents` (lines 138-181) given the RPC's candidate
rows (`none` = an exception occurred).  Empty candidates give the fallback
`[('presaleskb', 50.0)]` (line 159); otherwise the per-agent maxima are
sorted descending and truncated to `top_n` (lines 169-177). -/
def findBestAgents (candidates : Option (List (String × ℚ))) (topN : Nat) :
    List (String × ℚ) :=
  match candidates with
  | none => [("presaleskb", 50)]
  | some data =>
    if data = [] then [("presaleskb", 50)]
    else (sortDesc (fbaAggregate data)).take topN

/-- The maximum of `similarity * 100` over the candidate rows that belong to
agent `a` (`none` when the agent has no row): the value `find_best_agents`
is supposed to assign to agent `a`. -/
def bmax : List (String × ℚ) → String → Option ℚ
  | [], _ => none
  | (k, s) :: rest, a =>
    if k = a then
      match bmax rest a with
      | none => some (s * 100)
      | some m => some (max (s * 100) m)
    else bmax rest a

/-- Max of two optional scores (absent = no candidate seen). -/
def optMax : Option ℚ → Option ℚ → Option ℚ
  | none, y => y
  | some v, none => some v
  | some v, some w => some (max v w)

/-- The association list has pairwise-distinct keys (a dict invariant). -/
def keysND {α : Type} (l : List (String × α)) : Prop :=
  (l.map Prod.fst).Nodup

/-! ## Conversational Router: `n8n_main_request` (main.py lines 1278-1382)
plus `ConversationalHandler` (lines 212-329)

State: the module-level dedup map `request_cache` (dedup key → last seen
`time.time()`) and the handler's response cache `self._cache`
(`f"response_{request_id}"` → (timestamp, formatted response), TTL 300 s).
Upstream n8n reply bodies and the two response-formatting steps are opaque:
`engineReply n` is the body returned by the n-th workflow-engine webhook call
a request makes, and `pmFormat` / `mainFormat` are the dict-shaping done by
`process_message` (lines 313-320) and by the endpoint (lines 1346-1357).
`call_n8n_webhook` (line 1339) is not defined under src/ — modelled from the
spec: the router "forwards the exchange to the external workflow engine"
invoked "via webhook", so it counts as one engine invocation returning the
engine's reply. -/

/-- An opaque formatted-response body. -/
abbrev RouterBody := String

structure RouterState where
  /-- `request_cache`: dedup key `f"{session_id}:{user_mssg}:{agent_name}"`
  → last-seen `time.time()`. -/
  requestCache : List (String × ℤ)
  /-- The handler's `self._cache`: `f"response_{request_id}"`
  → (`datetime.now()` timestamp, formatted response). -/
  responseCache : List (String × (ℤ × RouterBody))
deriving DecidableEq

/-- How the endpoint answered. -/
inductive RouterReply where
  /-- The `"Empty message ignored"` body (lines 1291-1295). -/
  | emptyAck (requestId : String)
  /-- The synthetic duplicate acknowledgment with
  `agent_response = "Processing your previous message..."` (lines 1305-1310). -/
  | dupAck (requestId : String)
  /-- A response-cache hit returned unchanged (line 1334). -/
  | cachedReply (body : RouterBody)
  /-- A freshly produced formatted response (line 1369). -/
  | freshReply (body : RouterBody)
deriving DecidableEq

/-- Result of one call of the endpoint: the reply, the state afterwards, and
the number of workflow-engine webhook invocations the call performed. -/
structure RouterOut where
  reply : RouterReply
  state : RouterState
  engineCalls : Nat
deriving DecidableEq

/-- `ConversationalHandler.get_cached_response` (lines 219-227): a fresh entry
is returned; an expired entry is deleted; misses return `None`. -/
def getCachedResponse (cache : List (String × (ℤ × RouterBody))) (now : ℤ)
    (key : String) : Option RouterBody × List (String × (ℤ × RouterBody)) :=
  match lookupA cache key with
  | some (ts, body) =>
    if now - ts < 300 then (some body, cache) else (none, removeA cache key)
  | none => (none, cache)

/-- The environment of one router call: the reply bodies of the engine
webhook invocations the call makes (`engineReply 0` for the call inside
`process_message`, `engineReply 1` for `call_n8n_webhook`), and the two
opaque formatting steps. -/
structure RouterEnv where
  engineReply : Nat → RouterBody
  pmFormat : RouterBody → RouterBody
  mainFormat : RouterBody → RouterBody

/-- `request_key = f"{session_id}:{request.user_mssg}:{agent_name}"`
(line 1298). -/
def routerKey (sessionId userMssg agentName : String) : String :=
  sessionId ++ ":" ++ userMssg ++ ":" ++ agentName

/-- The duplicate test of lines 1302-1303: the key was seen less than 2
seconds ago. -/
def routerIsDup (st : RouterState) (now : ℤ) (key : String) : Bool :=
  match lookupA st.requestCache key with
  | some t => decide (now - t < 2)
  | none => false

/-- The sweep of lines 1315-1317: delete every entry whose last-seen time is
more than 10 seconds old. -/
def routerSweep (rc : List (String × ℤ)) (now : ℤ) : List (String × ℤ) :=
  rc.filter (fun e => !(decide (now - e.2 > 10)))

/-- `n8n_main_request` (lines 1278-1382), exception-free path, for a request
carrying `user_mssg`, path parameters `agent_name`/`session_id`, and a
client-supplied `request_id`.  Mirrors the source order: empty-message check
(line 1289); content-dedup check with the 2 s window (lines 1302-1310,
returning *before* touching the caches); dedup-map write then sweep of
entries older than 10 s (lines 1312-1317); response-cache probe by
`request_id` (lines 1331-1334); `handle_message` → `process_message`, which
posts to the engine and caches its formatted reply (lines 258-329); then
`call_n8n_webhook` — a second engine invocation — whose reply is formatted
and cached, overwriting the previous entry (lines 1339-1369). -/
def n8nMainRequest (env : RouterEnv) (st : RouterState) (now : ℤ)
    (userMssg sessionId agentName requestId : String) : RouterOut :=
  if pyStrip userMssg = "" then ⟨.emptyAck requestId, st, 0⟩
  else
    if routerIsDup st now (routerKey sessionId userMssg agentName) then
      ⟨.dupAck requestId, st, 0⟩
    else
      let rc2 :=
        routerSweep (setA st.requestCache (routerKey sessionId userMssg agentName) now) now
      match getCachedResponse st.responseCache now ("response_" ++ requestId) with
      | (some body, respC) => ⟨.cachedReply body, ⟨rc2, respC⟩, 0⟩
      | (none, respC) =>
        -- handle_message re-probes the same cache (line 275) and misses,
        -- then process_message posts to the engine (line 305) and the
        -- handler caches the formatted reply (line 283)
        let handled := env.pmFormat (env.engineReply 0)
        let respC1 := setA respC ("response_" ++ requestId) (now, handled)
        -- call_n8n_webhook (line 1339): the second engine invocation;
        -- its reply is formatted (lines 1346-1357) and cached (line 1360)
        let formatted := env.mainFormat (env.engineReply 1)
        let respC2 := setA respC1 ("response_" ++ requestId) (now, formatted)
        ⟨.freshReply formatted, ⟨rc2, respC2⟩, 2⟩

/-! ## Session Registry: the websocket receive loop (main.py lines 1889-2004)

One iteration of the business-frame branch (lines 1948-1977): the check
against the global `active_requests` set, the `add`, the ack send, the
dispatch of `process_n8n_request_async` as an independent task, and the
`finally: active_requests.discard(request_id)` — which runs in the *same*
iteration, before the loop reads the next frame.  `process_n8n_request_async`
is not defined under src/ — modelled from the spec: it performs the dispatched
processing and does not touch the in-flight set. -/

/-- `set.add` on the in-flight list-as-set. -/
def inflightAdd (active : List String) (rid : String) : List String :=
  if rid ∈ active then active else rid :: active

/-- `set.discard`. -/
def inflightDiscard (active : List String) (rid : String) : List String :=
  active.filter (fun x => x ≠ rid)

/-- Observable outcome of handling one business frame. -/
structure WsFrameOut where
  active : List String
  ackSent : Bool
  dispatched : Bool
deriving DecidableEq

/-- Handling of one business frame in the receive loop (lines 1948-1977):
if its `request_id` is in the in-flight set the frame is dropped with no ack;
otherwise the id is added, an ack frame is sent, one processing task is
dispatched, and the id is discarded again before the iteration ends. -/
def wsHandleBusinessFrame (active : List String) (rid : String) : WsFrameOut :=
  if rid ∈ active then ⟨active, false, false⟩
  else ⟨inflightDiscard (inflightAdd active rid) rid, true, true⟩

/-! ## Streaming Fan-out: `receive_stream_update` (main.py lines 1411-1455) -/

/-- The body of a `StreamUpdate` POST (the pydantic model at lines 461-469,
with the two metadata fields the endpoint reads). -/
structure StreamUpd where
  type : String
  userId : String
  agentName : Option String
  agentNames : Option String
  message : String
  progress : Int
  agentResponse : Option String
  metaSessionId : String
  metaRequestId : String
deriving DecidableEq

/-- A `StreamingSession`: the ordered update log and the completion flag. -/
structure StreamSession where
  updates : List StreamUpd
  complete : Bool
deriving DecidableEq

/-- An outbound websocket frame sent by the fan-out. -/
inductive OutFrame where
  /-- The normalized progress frame (lines 1431-1439); `agent` is
  `update.agent_name or update.agent_names`. -/
  | status (type : String) (agent : Option String) (message : String)
      (progress : Int) (requestId : String)
  /-- The synthesized final-answer frame (lines 1442-1449). -/
  | agentResponse (agent : Option String) (message : String)
      (requestId : String) (final : Bool)
deriving DecidableEq

/-- Python `a or b` on two optional strings (`None` and `""` are falsy). -/
def pyOrOpt (a b : Option String) : Option String :=
  match a with
  | some s => if s = "" then b else some s
  | none => b

/-- Python truthiness of `update.agent_response`. -/
def truthyOpt (a : Option String) : Bool :=
  match a with
  | some s => !(s = "")
  | none => false

/-- `receive_stream_update` (lines 1411-1455): append the update to the
session log keyed `f"{user_id}:{request_id}"` (creating it if absent), set
the completion flag on a terminal type, and — when a connection is registered
under `f"{user_id}_{session_id}"` — send the normalized status frame, followed
by a synthesized `agent_response` frame when the type is `"complete"` and the
update carries a truthy `agent_response`.  Returns the new session map and the
ordered list of frames sent. -/
def receiveStreamUpdate (sessions : List (String × StreamSession))
    (connections : List String) (u : StreamUpd) :
    List (String × StreamSession) × List OutFrame :=
  let connectionId := u.userId ++ "_" ++ u.metaSessionId
  let sessionKey := u.userId ++ ":" ++ u.metaRequestId
  let sess := (lookupA sessions sessionKey).getD ⟨[], false⟩
  let sess1 : StreamSession := ⟨sess.updates ++ [u], sess.complete⟩
  let sess2 : StreamSession :=
    if u.type = "complete" ∨ u.type = "final" then ⟨sess1.updates, true⟩ else sess1
  let sessions' := setA sessions sessionKey sess2
  let frames : List OutFrame :=
    if connectionId ∈ connections then
      OutFrame.status u.type (pyOrOpt u.agentName u.agentNames) u.message
        u.progress u.metaRequestId ::
      (if u.type = "complete" ∧ truthyOpt u.agentResponse then
        [OutFrame.agentResponse u.agentName (u.agentResponse.getD "")
          u.metaRequestId true]
      else [])
    else []
  (sessions', frames)

/-! ## Parallel Task Orchestrator: `full_website_analysis`
(main.py lines 1797-1886) -/

/-- A subtask's returned dict, reduced to the fields the orchestrator reads:
its `"status"` value and an opaque rest. -/
structure SubDict where
  status : String
  payload : String
deriving DecidableEq

/-- One slot of the `asyncio.gather(..., return_exceptions=True)` result
(lines 1831-1839): either the subtask's dict or a captured exception. -/
inductive GatherItem where
  | val (d : SubDict)
  | exc (msg : String)
deriving DecidableEq

/-- One subtask as inspected after `asyncio.TimeoutError` (lines 1855-1868):
either `task.done()` with its dict, or still pending. -/
inductive DeadlineItem where
  | finished (d : SubDict)
  | pending
deriving DecidableEq

/-- How the 25-second shared wait ended: `completed` when `gather` returned
within the deadline, `deadline` when `asyncio.TimeoutError` was raised. -/
inductive RunMode where
  | completed (a s f : GatherItem)
  | deadline (a s f : DeadlineItem)
deriving DecidableEq

/-- The orchestrator's aggregated result. -/
structure FullAnalysisOut where
  analysis : SubDict
  screenshot : SubDict
  favicon : SubDict
  overallStatus : String
deriving DecidableEq

/-- Result slot filling on the in-time path (lines 1842-1853): a captured
exception becomes `{"status": "error", "message": str(e)}`. -/
def gatherSlot (g : GatherItem) : SubDict :=
  match g with
  | .val d => d
  | .exc m => ⟨"error", m⟩

/-- Result slot filling on the deadline path (lines 1855-1868): a finished
task contributes its real dict, an unfinished one the timeout placeholder. -/
def deadlineSlot (g : DeadlineItem) (timeoutMsg : String) : SubDict :=
  match g with
  | .finished d => d
  | .pending => ⟨"timeout", timeoutMsg⟩

/-- `full_website_analysis` (lines 1797-1886): fill the three result slots
according to how the shared wait ended, then set `overall_status` to
`"success"` exactly when all three slot statuses are `"success"`, and to
`"partial_success"` otherwise (lines 1870-1876). -/
def fullWebsiteAnalysis (mode : RunMode) : FullAnalysisOut :=
  let (ra, rs, rf) :=
    match mode with
    | .completed a s f => (gatherSlot a, gatherSlot s, gatherSlot f)
    | .deadline a s f =>
      (deadlineSlot a "Analysis timed out",
       deadlineSlot s "Screenshot timed out",
       deadlineSlot f "Favicon timed out")
  let allSuccess :=
    ra.status = "success" ∧ rs.status = "success" ∧ rf.status = "success"
  ⟨ra, rs, rf, if allSuccess then "success" else "partial_success"⟩

/-! # Theorems -/

/-! ## Helper lemmas -/

theorem lookupA_setA_self {α : Type} (l : List (String × α)) (k : String) (v : α) :
    lookupA (setA l k v) k = some v := by
  induction l with
  | nil => simp [setA, lookupA]
  | cons hd t ih =>
    obtain ⟨k', w⟩ := hd
    by_cases hk : k' = k
    · simp [setA, hk, lookupA]
    · simp [setA, hk, lookupA, ih]

theorem checkAgentMatch_miss (up : CamUpstream) (cache : List (String × CamEntry))
    (now : ℤ) (agent query : String) (threshold : ℚ)
    (hdocs : up.hasDocs agent = true)
    (hmiss : camFreshHit cache now (camKey agent query) = none) :
    checkAgentMatch up cache now agent query threshold =
      ⟨.pair (camMatch up agent query threshold) (camConf up agent query threshold),
       setA cache (camKey agent query)
         ⟨camMatch up agent query threshold, camConf up agent query threshold, now⟩,
       1, 1⟩ := by
  unfold checkAgentMatch
  rw [hdocs, hmiss]
  simp

theorem checkAgentMatch_hit (up : CamUpstream) (cache : List (String × CamEntry))
    (now : ℤ) (agent query : String) (threshold : ℚ) (m : Bool) (c : ℚ)
    (hdocs : up.hasDocs agent = true)
    (hhit : camFreshHit cache now (camKey agent query) = some (m, c)) :
    checkAgentMatch up cache now agent query threshold = ⟨.pair m c, cache, 0, 0⟩ := by
  unfold checkAgentMatch
  rw [hdocs, hhit]
  simp

/-! ## C1: basic queries force a match with confidence `max(similarity, 0.4)` -/

/-- C1: for an agent with at least one indexed document and a query classified
basic (a fixed greeting/meta phrase occurs in the lowercased query, or it
splits into at most 3 whitespace-separated tokens), `check_agent_match`
— absent a cache hit and on the exception-free path — returns
`isMatch = true` with `confidence = max(similarity, 0.4)`, hence
`confidence ≥ 0.4`, for every similarity score and every threshold. -/
theorem check_agent_match_basic_forces_match
    (up : CamUpstream) (cache : List (String × CamEntry)) (now : ℤ)
    (agent query : String) (threshold : ℚ)
    (hdocs : up.hasDocs agent = true)
    (hmiss : camFreshHit cache now (camKey agent query) = none)
    (hbasic : camBasic query = true) :
    ∃ conf : ℚ,
      (checkAgentMatch up cache now agent query threshold).ret = .pair true conf ∧
      conf = max ((up.bestSim agent query threshold).getD 0) (2/5) ∧
      (2/5 : ℚ) ≤ conf := by
  have hm : camMatch up agent query threshold = true := by
    unfold camMatch
    rw [hbasic]
    simp
  have hc : camConf up agent query threshold =
      max ((up.bestSim agent query threshold).getD 0) (2/5) := by
    unfold camConf
    rw [hbasic]
    simp only [if_true]
    unfold camConf0
    rcases lt_or_le ((up.bestSim agent query threshold).getD 0) (2/5) with h | h
    · rw [if_pos h, max_eq_right (le_of_lt h)]
    · rw [if_neg (not_lt.mpr h), max_eq_left h]
  refine ⟨camConf up agent query threshold, ?_, hc, ?_⟩
  · rw [checkAgentMatch_miss up cache now agent query threshold hdocs hmiss, hm]
  · rw [hc]
    exact le_max_right _ _

/-- Upstream environment where every agent has documents and every similarity
lookup comes back empty. -/
def upNoSim : CamUpstream := ⟨fun _ => true, fun _ _ _ => none⟩

/-- Witness for C1: the agent `"presaleskb"` with documents, the basic query
`"hi"`, an empty cache, threshold `0.3`. -/
theorem check_agent_match_basic_forces_match_witness :
    upNoSim.hasDocs "presaleskb" = true ∧
    camFreshHit [] 0 (camKey "presaleskb" "hi") = none ∧
    camBasic "hi" = true ∧
    ∃ conf : ℚ,
      (checkAgentMatch upNoSim [] 0 "presaleskb" "hi" (3/10)).ret = .pair true conf ∧
      conf = max ((upNoSim.bestSim "presaleskb" "hi" (3/10)).getD 0) (2/5) ∧
      (2/5 : ℚ) ≤ conf :=
  ⟨rfl, rfl, by decide,
   check_agent_match_basic_forces_match upNoSim [] 0 "presaleskb" "hi" (3/10)
     rfl rfl (by decide)⟩

/-! ## C5: an agent without indexed documents -/

/-- C5 (code bug): for an agent with no indexed documents,
`check_agent_match` returns immediately — before any embedding computation or
similarity lookup and without touching the cache — but it returns the *bare
boolean* `False` (line 63), not the pair `(False, 0.0)` the spec states; the
two values are distinct, and both call sites (lines 602 and 722) unpack two
values from the return, which a bare boolean cannot provide. -/
theorem check_agent_match_missing_agent_bare_false
    (up : CamUpstream) (cache : List (String × CamEntry)) (now : ℤ)
    (agent query : String) (threshold : ℚ)
    (h : up.hasDocs agent = false) :
    checkAgentMatch up cache now agent query threshold = ⟨.bare false, cache, 0, 0⟩ ∧
    CamReturn.bare false ≠ CamReturn.pair false 0 := by
  refine ⟨?_, by simp⟩
  unfold checkAgentMatch
  rw [h]
  simp

/-- Upstream environment where no agent has documents. -/
def upNoDocs : CamUpstream := ⟨fun _ => false, fun _ _ _ => none⟩

/-- Witness for C5: the unknown agent `"ghost"`, query `"pricing plans"`. -/
theorem check_agent_match_missing_agent_bare_false_witness :
    upNoDocs.hasDocs "ghost" = false ∧
    (checkAgentMatch upNoDocs [] 0 "ghost" "pricing plans" (3/10) =
       ⟨.bare false, [], 0, 0⟩ ∧
     CamReturn.bare false ≠ CamReturn.pair false 0) :=
  ⟨rfl,
   check_agent_match_missing_agent_bare_false upNoDocs [] 0 "ghost" "pricing plans"
     (3/10) rfl⟩

/-! ## C6: the 300-second matcher cache -/

/-- C6: a second `check_agent_match` call for the same `(agent, query)` within
300 seconds of a first (computing) call returns the identical
`(match, confidence)` pair from the cache entry and performs no second
embedding computation or similarity lookup (and leaves the cache unchanged). -/
theorem check_agent_match_cached_within_ttl
    (up : CamUpstream) (cache : List (String × CamEntry)) (t1 t2 : ℤ)
    (agent query : String) (threshold : ℚ)
    (hdocs : up.hasDocs agent = true)
    (hmiss : camFreshHit cache t1 (camKey agent query) = none)
    (hdt : t2 - t1 < 300) :
    (checkAgentMatch up (checkAgentMatch up cache t1 agent query threshold).cache
        t2 agent query threshold).ret =
      (checkAgentMatch up cache t1 agent query threshold).ret ∧
    (checkAgentMatch up (checkAgentMatch up cache t1 agent query threshold).cache
        t2 agent query threshold).embedCalls = 0 ∧
    (checkAgentMatch up (checkAgentMatch up cache t1 agent query threshold).cache
        t2 agent query threshold).simCalls = 0 ∧
    (checkAgentMatch up (checkAgentMatch up cache t1 agent query threshold).cache
        t2 agent query threshold).cache =
      (checkAgentMatch up cache t1 agent query threshold).cache := by
  have h1 := checkAgentMatch_miss up cache t1 agent query threshold hdocs hmiss
  have h2 : checkAgentMatch up (checkAgentMatch up cache t1 agent query threshold).cache
      t2 agent query threshold =
      ⟨.pair (camMatch up agent query threshold) (camConf up agent query threshold),
       (checkAgentMatch up cache t1 agent query threshold).cache, 0, 0⟩ := by
    apply checkAgentMatch_hit _ _ _ _ _ _ _ _ hdocs
    rw [h1]
    show camFreshHit
        (setA cache (camKey agent query)
          ⟨camMatch up agent query threshold, camConf up agent query threshold, t1⟩)
        t2 (camKey agent query) =
      some (camMatch up agent query threshold, camConf up agent query threshold)
    unfold camFreshHit
    rw [lookupA_setA_self]
    simp [hdt]
  rw [h2, h1]
  exact ⟨rfl, rfl, rfl, rfl⟩

/-- Witness for C6: two calls at times 0 and 100 for
`("presaleskb", "what do your premium plans include today")`. -/
theorem check_agent_match_cached_within_ttl_witness :
    upNoSim.hasDocs "presaleskb" = true ∧
    camFreshHit [] 0 (camKey "presaleskb" "what do your premium plans include today") =
      none ∧
    (100 : ℤ) - 0 < 300 ∧
    ((checkAgentMatch upNoSim
        (checkAgentMatch upNoSim [] 0 "presaleskb"
          "what do your premium plans include today" (3/10)).cache
        100 "presaleskb" "what do your premium plans include today" (3/10)).ret =
      (checkAgentMatch upNoSim [] 0 "presaleskb"
        "what do your premium plans include today" (3/10)).ret ∧
     (checkAgentMatch upNoSim
        (checkAgentMatch upNoSim [] 0 "presaleskb"
          "what do your premium plans include today" (3/10)).cache
        100 "presaleskb" "what do your premium plans include today" (3/10)).embedCalls = 0 ∧
     (checkAgentMatch upNoSim
        (checkAgentMatch upNoSim [] 0 "presaleskb"
          "what do your premium plans include today" (3/10)).cache
        100 "presaleskb" "what do your premium plans include today" (3/10)).simCalls = 0 ∧
     (checkAgentMatch upNoSim
        (checkAgentMatch upNoSim [] 0 "presaleskb"
          "what do your premium plans include today" (3/10)).cache
        100 "presaleskb" "what do your premium plans include today" (3/10)).cache =
      (checkAgentMatch upNoSim [] 0 "presaleskb"
        "what do your premium plans include today" (3/10)).cache) :=
  ⟨rfl, rfl, by norm_num,
   check_agent_match_cached_within_ttl upNoSim [] 0 100 "presaleskb"
     "what do your premium plans include today" (3/10) rfl rfl (by norm_num)⟩

/-! ## Router helper lemmas -/

theorem lookupA_filter {α : Type} (p : String × α → Bool) (l : List (String × α))
    (k : String) (v : α) (h : lookupA l k = some v) (hp : p (k, v) = true) :
    lookupA (l.filter p) k = some v := by
  induction l with
  | nil => simp [lookupA] at h
  | cons hd t ih =>
    obtain ⟨k', w⟩ := hd
    by_cases hk : k' = k
    · subst hk
      simp only [lookupA, if_pos] at h
      rw [show w = v from by simpa using h] at *
      rw [List.filter_cons, if_pos hp]
      simp [lookupA]
    · simp only [lookupA, if_neg hk] at h
      rw [List.filter_cons]
      by_cases hp' : p (k', w) = true
      · rw [if_pos hp']
        simp [lookupA, hk, ih h]
      · rw [if_neg hp']
        exact ih h

theorem n8nMainRequest_dup (env : RouterEnv) (st : RouterState) (now : ℤ)
    (userMssg sessionId agentName requestId : String)
    (hmsg : ¬ pyStrip userMssg = "")
    (hdup : routerIsDup st now (routerKey sessionId userMssg agentName) = true) :
    n8nMainRequest env st now userMssg sessionId agentName requestId =
      ⟨.dupAck requestId, st, 0⟩ := by
  unfold n8nMainRequest
  rw [if_neg hmsg, hdup]
  simp

theorem n8nMainRequest_proceed (env : RouterEnv) (st : RouterState) (now : ℤ)
    (userMssg sessionId agentName requestId : String)
    (hmsg : ¬ pyStrip userMssg = "")
    (hnodup : routerIsDup st now (routerKey sessionId userMssg agentName) = false) :
    n8nMainRequest env st now userMssg sessionId agentName requestId =
      match getCachedResponse st.responseCache now ("response_" ++ requestId) with
      | (some body, respC) =>
        ⟨.cachedReply body,
         ⟨routerSweep (setA st.requestCache (routerKey sessionId userMssg agentName) now) now,
          respC⟩, 0⟩
      | (none, respC) =>
        ⟨.freshReply (env.mainFormat (env.engineReply 1)),
         ⟨routerSweep (setA st.requestCache (routerKey sessionId userMssg agentName) now) now,
          setA (setA respC ("response_" ++ requestId) (now, env.pmFormat (env.engineReply 0)))
            ("response_" ++ requestId) (now, env.mainFormat (env.engineReply 1))⟩, 2⟩ := by
  unfold n8nMainRequest
  rw [if_neg hmsg, hnodup]
  simp

/-! ## C3: content-based dedup of the main routed endpoint -/

/-- Router environment for the concrete dedup scenarios. -/
def rEnvC3 : RouterEnv :=
  ⟨fun _ => "reply", fun b => "pm:" ++ b, fun b => "main:" ++ b⟩

/-- Initial state holding one unrelated dedup entry last seen at time `-10`. -/
def rStC3 : RouterState := ⟨[("s2:old msg:agent", -10)], []⟩

/-- The first request of the pair, at time `0`. -/
def rOut1C3 : RouterOut := n8nMainRequest rEnvC3 rStC3 0 "hello there" "s" "presaleskb" "r1"

/-- The second, identically-keyed request, at time `1` (< 2 s later). -/
def rOut2C3 : RouterOut :=
  n8nMainRequest rEnvC3 rOut1C3.state 1 "hello there" "s" "presaleskb" "r2"

/-- Counterexample to C3 as stated: in the two-request scenario the second
request *is* answered with the synthetic duplicate acknowledgment, but (a) the
pair causes two workflow-engine webhook invocations, not at most one — the
first request posts to the engine once inside `process_message` and once more
via `call_n8n_webhook` — and (b) the duplicate-detected call returns before
the sweep, so the unrelated entry aged `1 - (-10) = 11 > 10` seconds is
*not* purged on that call. -/
theorem router_dedup_claim_counterexample :
    rOut2C3.reply = .dupAck "r2" ∧
    rOut1C3.engineCalls + rOut2C3.engineCalls = 2 ∧
    (1 : ℤ) - (-10) > 10 ∧
    lookupA rOut2C3.state.requestCache "s2:old msg:agent" = some (-10) := by
  refine ⟨?_, ?_, by norm_num, ?_⟩ <;> decide

/-- C3 (amended): for two requests with the same
`(session_id, message, agent_name)` key less than 2 seconds apart (the first
passing the empty-message and duplicate checks), the second is answered with
the synthetic duplicate acknowledgment, performs no engine invocation and
leaves all state unchanged; the first request performs either 0 (response-
cache hit) or 2 (fresh processing) engine invocations — never exactly 1 — and
its sweep leaves no dedup entry more than 10 seconds old; duplicate-detected
calls return before the sweep runs. -/
theorem router_duplicate_second_request_short_circuits
    (env1 env2 : RouterEnv) (st : RouterState) (t1 t2 : ℤ)
    (userMssg sessionId agentName rid1 rid2 : String)
    (hmsg : ¬ pyStrip userMssg = "")
    (hnodup : routerIsDup st t1 (routerKey sessionId userMssg agentName) = false)
    (hdt : t2 - t1 < 2) :
    n8nMainRequest env2 (n8nMainRequest env1 st t1 userMssg sessionId agentName rid1).state
        t2 userMssg sessionId agentName rid2 =
      ⟨.dupAck rid2,
       (n8nMainRequest env1 st t1 userMssg sessionId agentName rid1).state, 0⟩ ∧
    ((n8nMainRequest env1 st t1 userMssg sessionId agentName rid1).engineCalls = 0 ∨
     (n8nMainRequest env1 st t1 userMssg sessionId agentName rid1).engineCalls = 2) ∧
    (∀ e ∈ (n8nMainRequest env1 st t1 userMssg sessionId agentName rid1).state.requestCache,
       ¬ (t1 - e.2 > 10)) := by
  have h1 := n8nMainRequest_proceed env1 st t1 userMssg sessionId agentName rid1 hmsg hnodup
  have hkey : lookupA
      (n8nMainRequest env1 st t1 userMssg sessionId agentName rid1).state.requestCache
      (routerKey sessionId userMssg agentName) = some t1 := by
    rw [h1]
    rcases hg : getCachedResponse st.responseCache t1 ("response_" ++ rid1) with ⟨ob, respC⟩
    cases ob <;>
      · simp only [hg]
        apply lookupA_filter
        · exact lookupA_setA_self _ _ _
        · simp
  have hsweep : ∀ e ∈
      (n8nMainRequest env1 st t1 userMssg sessionId agentName rid1).state.requestCache,
      ¬ (t1 - e.2 > 10) := by
    rw [h1]
    rcases hg : getCachedResponse st.responseCache t1 ("response_" ++ rid1) with ⟨ob, respC⟩
    cases ob <;>
      · simp only [hg]
        intro e he
        have := List.of_mem_filter he
        simpa using this
  refine ⟨?_, ?_, hsweep⟩
  · apply n8nMainRequest_dup env2 _ t2 userMssg sessionId agentName rid2 hmsg
    unfold routerIsDup
    rw [hkey]
    simpa using hdt
  · rw [h1]
    rcases hg : getCachedResponse st.responseCache t1 ("response_" ++ rid1) with ⟨ob, respC⟩
    cases ob
    · right
      simp [hg]
    · left
      simp [hg]

/-- Witness for the amended C3: the concrete pair of `rOut1C3`/`rOut2C3`
instantiated through the theorem. -/
theorem router_duplicate_second_request_short_circuits_witness :
    (¬ pyStrip "hello there" = "") ∧
    routerIsDup rStC3 0 (routerKey "s" "hello there" "presaleskb") = false ∧
    ((1 : ℤ) - 0 < 2) ∧
    (n8nMainRequest rEnvC3 (n8nMainRequest rEnvC3 rStC3 0 "hello there" "s" "presaleskb" "r1").state
        1 "hello there" "s" "presaleskb" "r2" =
      ⟨.dupAck "r2",
       (n8nMainRequest rEnvC3 rStC3 0 "hello there" "s" "presaleskb" "r1").state, 0⟩ ∧
     ((n8nMainRequest rEnvC3 rStC3 0 "hello there" "s" "presaleskb" "r1").engineCalls = 0 ∨
      (n8nMainRequest rEnvC3 rStC3 0 "hello there" "s" "presaleskb" "r1").engineCalls = 2) ∧
     (∀ e ∈ (n8nMainRequest rEnvC3 rStC3 0 "hello there" "s" "presaleskb" "r1").state.requestCache,
        ¬ ((0 : ℤ) - e.2 > 10))) :=
  ⟨by decide, by decide, by norm_num,
   router_duplicate_second_request_short_circuits rEnvC3 rEnvC3 rStC3 0 1
     "hello there" "s" "presaleskb" "r1" "r2" (by decide) (by decide) (by norm_num)⟩

/-! ## C10: content dedup is checked before the request-id response cache -/

/-- C10: in `n8n_main_request` the 2-second content-dedup check (lines
1302-1310) runs before the `request_id` response-cache probe (line 1331), so a
duplicate submission within 2 seconds is answered with the synthetic
acknowledgment even when a fresh cached formatted response exists for its
`request_id`, and nothing is touched or invoked. -/
theorem router_content_dedup_wins_over_response_cache
    (env : RouterEnv) (st : RouterState) (now t : ℤ)
    (userMssg sessionId agentName requestId : String) (body : RouterBody)
    (hmsg : ¬ pyStrip userMssg = "")
    (hlook : lookupA st.requestCache (routerKey sessionId userMssg agentName) = some t)
    (ht : now - t < 2)
    (hcache : (getCachedResponse st.responseCache now ("response_" ++ requestId)).1 =
      some body) :
    n8nMainRequest env st now userMssg sessionId agentName requestId =
      ⟨.dupAck requestId, st, 0⟩ := by
  apply n8nMainRequest_dup env st now userMssg sessionId agentName requestId hmsg
  unfold routerIsDup
  rw [hlook]
  simpa using ht

/-- State for the C10 witness: the dedup key was seen at time `0` and a fresh
formatted response is cached under the duplicate's `request_id`. -/
def rStC10 : RouterState :=
  ⟨[(routerKey "s" "hello there" "presaleskb", 0)],
   [("response_r9", (0, "cached-body"))]⟩

/-- Witness for C10 at time `1`. -/
theorem router_content_dedup_wins_over_response_cache_witness :
    (¬ pyStrip "hello there" = "") ∧
    lookupA rStC10.requestCache (routerKey "s" "hello there" "presaleskb") = some 0 ∧
    ((1 : ℤ) - 0 < 2) ∧
    (getCachedResponse rStC10.responseCache 1 ("response_" ++ "r9")).1 =
      some "cached-body" ∧
    n8nMainRequest rEnvC3 rStC10 1 "hello there" "s" "presaleskb" "r9" =
      ⟨.dupAck "r9", rStC10, 0⟩ :=
  ⟨by decide, by decide, by norm_num, by decide,
   router_content_dedup_wins_over_response_cache rEnvC3 rStC10 1 0
     "hello there" "s" "presaleskb" "r9" "cached-body"
     (by decide) (by decide) (by norm_num) (by decide)⟩

/-! ## C4: websocket in-flight duplicate suppression -/

/-- The iteration handling the first of two back-to-back frames with
`requestId = "req-1"`, starting from an empty in-flight set. -/
def wsOut1C4 : WsFrameOut := wsHandleBusinessFrame [] "req-1"

/-- The iteration handling the second, identical frame: it starts from the
in-flight set the first iteration left behind, because the receive loop only
reads the next frame after the previous iteration — including its
`finally: active_requests.discard(request_id)` — has finished. -/
def wsOut2C4 : WsFrameOut := wsHandleBusinessFrame wsOut1C4.active "req-1"

/-- Counterexample to C4 as stated: for two back-to-back business frames with
the same `requestId` on one connection, *both* are dispatched and both are
acked — the `finally` block (line 1977) removes the id from the in-flight set
in the same iteration that dispatched it (line 1972), so the set is empty
again when the second frame is read. -/
theorem ws_duplicate_suppression_counterexample :
    wsOut1C4.dispatched = true ∧ wsOut1C4.ackSent = true ∧
    wsOut2C4.dispatched = true ∧ wsOut2C4.ackSent = true := by
  decide

/-- C4 (amended): a business frame whose `request_id` is in the in-flight set
at the moment it is handled is silently dropped — no ack, no dispatch, no
state change — so an id present in the set is never dispatched again while it
is present; but the id is discarded again within the dispatching iteration
itself, so of two back-to-back frames with the same `requestId` on one
connection each one is dispatched and acked (two processing tasks, not one). -/
theorem ws_inflight_suppression_amended (active : List String) (rid : String) :
    (rid ∈ active →
      wsHandleBusinessFrame active rid = ⟨active, false, false⟩) ∧
    (rid ∉ active →
      (wsHandleBusinessFrame active rid).dispatched = true ∧
      (wsHandleBusinessFrame active rid).ackSent = true ∧
      rid ∉ (wsHandleBusinessFrame active rid).active ∧
      (wsHandleBusinessFrame (wsHandleBusinessFrame active rid).active rid).dispatched
        = true ∧
      (wsHandleBusinessFrame (wsHandleBusinessFrame active rid).active rid).ackSent
        = true) := by
  constructor
  · intro h
    unfold wsHandleBusinessFrame
    rw [if_pos h]
  · intro h
    have hgen : ∀ act : List String, rid ∉ act →
        wsHandleBusinessFrame act rid =
          ⟨inflightDiscard (inflightAdd act rid) rid, true, true⟩ := by
      intro act hact
      unfold wsHandleBusinessFrame
      rw [if_neg hact]
    have hout : rid ∉ (wsHandleBusinessFrame active rid).active := by
      rw [hgen active h]
      intro hmem
      have := List.mem_filter.mp hmem
      simp at this
    refine ⟨by rw [hgen active h], by rw [hgen active h], hout, ?_, ?_⟩
    · rw [hgen _ hout]
    · rw [hgen _ hout]

/-- Witness for the amended C4, at the concrete pair of frames of the
counterexample scenario (in-flight set empty, `requestId = "req-1"`). -/
theorem ws_inflight_suppression_amended_witness :
    ("req-1" ∉ ([] : List String)) ∧
    (("req-1" ∈ ([] : List String) →
       wsHandleBusinessFrame [] "req-1" = ⟨[], false, false⟩) ∧
     ("req-1" ∉ ([] : List String) →
       (wsHandleBusinessFrame [] "req-1").dispatched = true ∧
       (wsHandleBusinessFrame [] "req-1").ackSent = true ∧
       "req-1" ∉ (wsHandleBusinessFrame [] "req-1").active ∧
       (wsHandleBusinessFrame (wsHandleBusinessFrame [] "req-1").active
           "req-1").dispatched = true ∧
       (wsHandleBusinessFrame (wsHandleBusinessFrame [] "req-1").active
           "req-1").ackSent = true)) :=
  ⟨by decide, ws_inflight_suppression_amended [] "req-1"⟩

/-! ## C7: terminal progress events and the two-frame fan-out -/

/-- A terminal event of type `"final"` carrying a final answer, for a user
with a registered live connection. -/
def updC7 : StreamUpd :=
  ⟨"final", "u1", some "presaleskb", none, "done", 100, some "the answer", "s1", "r1"⟩

/-- Counterexample to C7 as stated: for the terminal type `"final"` with a
final answer payload and a live connection, only ONE outbound frame (the
status frame) is emitted — the synthesized `agent_response` frame is guarded
by `update.type == "complete"` (line 1441), which excludes `"final"`. -/
theorem stream_final_answer_single_frame_counterexample :
    updC7.type = "final" ∧
    truthyOpt updC7.agentResponse = true ∧
    ("u1_s1" ∈ ["u1_s1"]) ∧
    (receiveStreamUpdate [] ["u1_s1"] updC7).2 =
      [OutFrame.status "final" (some "presaleskb") "done" 100 "r1"] := by
  decide

/-- C7 (amended): for a terminal progress event of type `"complete"` (not
`"final"`) carrying a truthy final answer, whose user/session has a
registered live connection, exactly two outbound frames are emitted in strict
order: first the status/terminal frame, then the distinct `agent_response`
frame marked final and carrying the answer; a `"final"`-typed event emits the
status frame only. -/
theorem stream_complete_sends_status_then_answer
    (sessions : List (String × StreamSession)) (connections : List String)
    (u : StreamUpd)
    (hconn : (u.userId ++ "_" ++ u.metaSessionId) ∈ connections)
    (htype : u.type = "complete")
    (hresp : truthyOpt u.agentResponse = true) :
    (receiveStreamUpdate sessions connections u).2 =
      [OutFrame.status "complete" (pyOrOpt u.agentName u.agentNames) u.message
         u.progress u.metaRequestId,
       OutFrame.agentResponse u.agentName (u.agentResponse.getD "")
         u.metaRequestId true] := by
  unfold receiveStreamUpdate
  simp only [htype]
  rw [if_pos hconn]
  simp [hresp]

/-- A `"complete"` event with a final answer for the same connection. -/
def updC7b : StreamUpd :=
  ⟨"complete", "u1", some "presaleskb", none, "done", 100, some "the answer", "s1", "r1"⟩

/-- Witness for the amended C7. -/
theorem stream_complete_sends_status_then_answer_witness :
    ("u1_s1" ∈ ["u1_s1"]) ∧
    updC7b.type = "complete" ∧
    truthyOpt updC7b.agentResponse = true ∧
    (receiveStreamUpdate [] ["u1_s1"] updC7b).2 =
      [OutFrame.status "complete" (pyOrOpt updC7b.agentName updC7b.agentNames)
         updC7b.message updC7b.progress updC7b.metaRequestId,
       OutFrame.agentResponse updC7b.agentName (updC7b.agentResponse.getD "")
         updC7b.metaRequestId true] :=
  ⟨by decide, by decide, by decide,
   stream_complete_sends_status_then_answer [] ["u1_s1"] updC7b
     (by decide) (by decide) (by decide)⟩

/-! ## C8: streaming sessions after completion -/

/-- A follow-up progress event arriving after its session completed. -/
def updC8 : StreamUpd :=
  ⟨"progress", "u1", some "presaleskb", none, "more work", 50, none, "s1", "r1"⟩

/-- The session map holding an already-completed session for the same key. -/
def sessionsC8 : List (String × StreamSession) := [("u1:r1", ⟨[], true⟩)]

/-- Counterexample to C8 as stated: `receive_stream_update` appends to the
update list unconditionally (line 1424) — it never consults the completion
flag — so a progress event arriving after the session was marked complete
mutates the completed session's state (its update list grows). -/
theorem stream_session_mutated_after_completion_counterexample :
    lookupA sessionsC8 "u1:r1" = some ⟨[], true⟩ ∧
    lookupA (receiveStreamUpdate sessionsC8 [] updC8).1 "u1:r1" =
      some ⟨[updC8], true⟩ ∧
    ([updC8] : List StreamUpd) ≠ [] := by
  refine ⟨by decide, by decide, by decide⟩

/-- C8 (amended): once a streaming session is marked complete, its completion
flag is never cleared by later events for the same key; but its ordered
update list is **not** frozen — every subsequently received progress event for
the key is still appended to it. -/
theorem stream_completed_session_keeps_flag_but_grows
    (sessions : List (String × StreamSession)) (connections : List String)
    (u : StreamUpd) (sess : StreamSession)
    (hlook : lookupA sessions (u.userId ++ ":" ++ u.metaRequestId) = some sess)
    (hdone : sess.complete = true) :
    lookupA (receiveStreamUpdate sessions connections u).1
        (u.userId ++ ":" ++ u.metaRequestId) =
      some ⟨sess.updates ++ [u], true⟩ := by
  unfold receiveStreamUpdate
  simp only [hlook, Option.getD_some]
  rw [lookupA_setA_self]
  split
  · rfl
  · rw [hdone]

/-- Witness for the amended C8: the concrete completed session of the
counterexample scenario. -/
theorem stream_completed_session_keeps_flag_but_grows_witness :
    lookupA sessionsC8 ("u1" ++ ":" ++ "r1") = some ⟨[], true⟩ ∧
    (StreamSession.mk [] true).complete = true ∧
    lookupA (receiveStreamUpdate sessionsC8 [] updC8).1
        (updC8.userId ++ ":" ++ updC8.metaRequestId) =
      some ⟨(StreamSession.mk [] true).updates ++ [updC8], true⟩ :=
  ⟨by decide, rfl,
   stream_completed_session_keeps_flag_but_grows sessionsC8 [] updC8
     ⟨[], true⟩ (by decide) rfl⟩

/-! ## C9: the bounded orchestrator's aggregation -/

/-- C9: the orchestrator's `overall_status` is `"success"` iff all three
subtask results have status `"success"`, and `"partial_success"` otherwise;
and on the 25-second deadline path each finished subtask contributes its real
result while each unfinished one contributes its `{status: "timeout"}`
placeholder. -/
theorem full_analysis_aggregation (mode : RunMode) :
    ((fullWebsiteAnalysis mode).overallStatus = "success" ↔
      ((fullWebsiteAnalysis mode).analysis.status = "success" ∧
       (fullWebsiteAnalysis mode).screenshot.status = "success" ∧
       (fullWebsiteAnalysis mode).favicon.status = "success")) ∧
    (¬ ((fullWebsiteAnalysis mode).analysis.status = "success" ∧
        (fullWebsiteAnalysis mode).screenshot.status = "success" ∧
        (fullWebsiteAnalysis mode).favicon.status = "success") →
      (fullWebsiteAnalysis mode).overallStatus = "partial_success") ∧
    (∀ a s f, mode = .deadline a s f →
      (∀ d, a = .finished d → (fullWebsiteAnalysis mode).analysis = d) ∧
      (a = .pending →
        (fullWebsiteAnalysis mode).analysis = ⟨"timeout", "Analysis timed out"⟩) ∧
      (∀ d, s = .finished d → (fullWebsiteAnalysis mode).screenshot = d) ∧
      (s = .pending →
        (fullWebsiteAnalysis mode).screenshot = ⟨"timeout", "Screenshot timed out"⟩) ∧
      (∀ d, f = .finished d → (fullWebsiteAnalysis mode).favicon = d) ∧
      (f = .pending →
        (fullWebsiteAnalysis mode).favicon = ⟨"timeout", "Favicon timed out"⟩)) := by
  refine ⟨?_, ?_, ?_⟩
  · unfold fullWebsiteAnalysis
    rcases mode with ⟨a, s, f⟩ | ⟨a, s, f⟩ <;>
      · simp only []
        split
        · rename_i h
          simpa using h
        · rename_i h
          constructor
          · intro hfalse
            exact absurd hfalse (by decide)
          · intro hc
            exact absurd hc h
  · unfold fullWebsiteAnalysis
    rcases mode with ⟨a, s, f⟩ | ⟨a, s, f⟩ <;>
      · simp only []
        split
        · rename_i h
          intro hc
          exact absurd h hc
        · intro _
          rfl
  · intro a s f hmode
    subst hmode
    refine ⟨?_, ?_, ?_, ?_, ?_, ?_⟩
    · intro d hd
      subst hd
      rfl
    · intro hd
      subst hd
      rfl
    · intro d hd
      subst hd
      rfl
    · intro hd
      subst hd
      rfl
    · intro d hd
      subst hd
      rfl
    · intro hd
      subst hd
      rfl

/-- The deadline scenario of the spec's testable property: analysis and
screenshot finished successfully, favicon still pending at the deadline. -/
def modeC9 : RunMode :=
  .deadline (.finished ⟨"success", "analysis-payload"⟩)
    (.finished ⟨"success", "screenshot-payload"⟩) .pending

/-- Witness for C9: in `modeC9` the two finished subtasks keep their real
payloads, the pending one reports the timeout placeholder, and the aggregate
is `"partial_success"`. -/
theorem full_analysis_aggregation_witness :
    (fullWebsiteAnalysis modeC9).analysis = ⟨"success", "analysis-payload"⟩ ∧
    (fullWebsiteAnalysis modeC9).favicon = ⟨"timeout", "Favicon timed out"⟩ ∧
    (fullWebsiteAnalysis modeC9).overallStatus = "partial_success" :=
  ⟨((full_analysis_aggregation modeC9).2.2 _ _ _ rfl).1 _ rfl,
   ((full_analysis_aggregation modeC9).2.2 _ _ _ rfl).2.2.2.2.2 rfl,
   (full_analysis_aggregation modeC9).2.1 (by decide)⟩

/-! ## find_best_agents helper lemmas -/

theorem optMax_none_right (x : Option ℚ) : optMax x none = x := by
  cases x <;> rfl

theorem optMax_assoc (x y z : Option ℚ) :
    optMax (optMax x y) z = optMax x (optMax y z) := by
  cases x <;> cases y <;> cases z <;> simp [optMax, max_assoc]

theorem lookupA_append_single {α : Type} (l : List (String × α)) (k a : String)
    (v : α) (h : ¬ a = k) : lookupA (l ++ [(k, v)]) a = lookupA l a := by
  have h' : ¬ k = a := fun hh => h hh.symm
  induction l with
  | nil => simp [lookupA, h']
  | cons hd t ih =>
    obtain ⟨k', w⟩ := hd
    by_cases hk : k' = a
    · simp [lookupA, hk]
    · simp [lookupA, hk, ih]

theorem lookupA_append_self {α : Type} (l : List (String × α)) (k : String)
    (v : α) (h : lookupA l k = none) : lookupA (l ++ [(k, v)]) k = some v := by
  induction l with
  | nil => simp [lookupA]
  | cons hd t ih =>
    obtain ⟨k', w⟩ := hd
    by_cases hk : k' = k
    · simp [lookupA, hk] at h
    · simp only [lookupA, if_neg hk] at h
      simp only [List.cons_append, lookupA, if_neg hk]
      exact ih h

theorem lookupA_setA_ne {α : Type} (l : List (String × α)) (k a : String)
    (v : α) (h : ¬ a = k) : lookupA (setA l k v) a = lookupA l a := by
  have h' : ¬ k = a := fun hh => h hh.symm
  induction l with
  | nil => simp [setA, lookupA, h']
  | cons hd t ih =>
    obtain ⟨k', w⟩ := hd
    by_cases hk : k' = k
    · subst hk
      simp only [setA, if_pos rfl]
      simp [lookupA, h']
    · simp only [setA, if_neg hk, lookupA]
      by_cases ha : k' = a
      · rw [if_pos ha, if_pos ha]
      · rw [if_neg ha, if_neg ha]
        exact ih

theorem lookupA_fbaStep_self (acc : List (String × ℚ)) (k : String) (s : ℚ) :
    lookupA (fbaStep acc (k, s)) k = optMax (lookupA acc k) (some (s * 100)) := by
  unfold fbaStep
  rcases h : lookupA acc k with _ | old
  · simp only [h]
    rw [lookupA_append_self acc k _ h]
    rfl
  · simp only [h]
    by_cases hlt : old < s * 100
    · rw [if_pos hlt, lookupA_setA_self]
      simp [optMax, max_eq_right (le_of_lt hlt)]
    · rw [if_neg hlt, h]
      simp [optMax, max_eq_left (not_lt.mp hlt)]

theorem lookupA_fbaStep_ne (acc : List (String × ℚ)) (k a : String) (s : ℚ)
    (h : ¬ a = k) :
    lookupA (fbaStep acc (k, s)) a = lookupA acc a := by
  unfold fbaStep
  rcases hl : lookupA acc k with _ | old
  · simp only [hl]
    exact lookupA_append_single acc k a _ h
  · simp only [hl]
    by_cases hlt : old < s * 100
    · rw [if_pos hlt]
      exact lookupA_setA_ne acc k a _ h
    · rw [if_neg hlt]

theorem lookupA_fbaFold (data : List (String × ℚ)) :
    ∀ (acc : List (String × ℚ)) (a : String),
      lookupA (data.foldl fbaStep acc) a = optMax (lookupA acc a) (bmax data a) := by
  induction data with
  | nil =>
    intro acc a
    simp [bmax, optMax_none_right]
  | cons item rest ih =>
    intro acc a
    obtain ⟨k, s⟩ := item
    rw [List.foldl_cons, ih]
    by_cases hak : a = k
    · subst hak
      rw [lookupA_fbaStep_self, optMax_assoc]
      congr 1
      simp only [bmax, if_pos rfl]
      cases bmax rest a <;> rfl
    · rw [lookupA_fbaStep_ne acc k a s hak]
      have hka : ¬ k = a := fun hh => hak hh.symm
      congr 1
      simp only [bmax, if_neg hka]

theorem lookupA_fbaAggregate (data : List (String × ℚ)) (a : String) :
    lookupA (fbaAggregate data) a = bmax data a := by
  unfold fbaAggregate
  rw [lookupA_fbaFold]
  rfl

theorem lookupA_eq_none_iff {α : Type} (l : List (String × α)) (k : String) :
    lookupA l k = none ↔ k ∉ l.map Prod.fst := by
  induction l with
  | nil => simp [lookupA]
  | cons hd t ih =>
    obtain ⟨k', w⟩ := hd
    by_cases hk : k' = k
    · subst hk
      simp [lookupA]
    · have h2 : ¬ k = k' := fun hh => hk hh.symm
      simp [lookupA, hk, ih, h2]

theorem map_fst_setA_of_mem {α : Type} (l : List (String × α)) (k : String)
    (v : α) (h : ¬ lookupA l k = none) :
    (setA l k v).map Prod.fst = l.map Prod.fst := by
  induction l with
  | nil => simp [lookupA] at h
  | cons hd t ih =>
    obtain ⟨k', w⟩ := hd
    by_cases hk : k' = k
    · simp [setA, hk]
    · simp only [lookupA, if_neg hk] at h
      simp [setA, hk, ih h]

theorem keysND_fbaStep (acc : List (String × ℚ)) (item : String × ℚ)
    (h : keysND acc) : keysND (fbaStep acc item) := by
  obtain ⟨k, s⟩ := item
  unfold keysND at h ⊢
  unfold fbaStep
  rcases hl : lookupA acc k with _ | old
  · simp only [hl]
    have hk : k ∉ acc.map Prod.fst := (lookupA_eq_none_iff acc k).mp hl
    simp [List.nodup_append, h, hk]
  · simp only [hl]
    by_cases hlt : old < s * 100
    · rw [if_pos hlt]
      rw [map_fst_setA_of_mem acc k _ (by rw [hl]; simp)]
      exact h
    · rw [if_neg hlt]
      exact h

theorem keysND_fbaAggregate (data : List (String × ℚ)) :
    keysND (fbaAggregate data) := by
  unfold fbaAggregate
  have hgen : ∀ (l : List (String × ℚ)) (acc : List (String × ℚ)),
      keysND acc → keysND (l.foldl fbaStep acc) := by
    intro l
    induction l with
    | nil => intro acc h; exact h
    | cons item rest ih =>
      intro acc h
      rw [List.foldl_cons]
      exact ih _ (keysND_fbaStep acc item h)
  exact hgen data [] (by simp [keysND])

theorem mem_iff_lookupA {α : Type} (l : List (String × α)) (hnd : keysND l)
    (k : String) (v : α) : (k, v) ∈ l ↔ lookupA l k = some v := by
  induction l with
  | nil => simp [lookupA]
  | cons hd t ih =>
    obtain ⟨k', w⟩ := hd
    have hnd0 : k' ∉ t.map Prod.fst ∧ (t.map Prod.fst).Nodup := by
      unfold keysND at hnd
      simpa using List.nodup_cons.mp hnd
    by_cases hk : k' = k
    · subst hk
      constructor
      · intro hmem
        rcases List.mem_cons.mp hmem with heq | htail
        · have hvw : v = w := ((Prod.mk.injEq _ _ _ _).mp heq).2
          simp [lookupA, hvw]
        · exact absurd (List.mem_map_of_mem Prod.fst htail) hnd0.1
      · intro hl
        have hwv : w = v := by simpa [lookupA] using hl
        subst hwv
        exact List.mem_cons_self _ _
    · have h2 : ¬ k = k' := fun hh => hk hh.symm
      simp only [lookupA, if_neg hk]
      rw [← ih hnd0.2]
      constructor
      · intro hmem
        rcases List.mem_cons.mp hmem with heq | ht
        · exfalso
          exact h2 ((Prod.mk.injEq _ _ _ _).mp heq).1
        · exact ht
      · intro ht
        exact List.mem_cons_of_mem _ ht

theorem bmax_none_not_mem (data : List (String × ℚ)) (a : String)
    (h : bmax data a = none) : ∀ s, (a, s) ∈ data → False := by
  induction data with
  | nil =>
    intro s hs
    simp at hs
  | cons item rest ih =>
    obtain ⟨k, w⟩ := item
    intro s hs
    by_cases hk : k = a
    · subst hk
      simp only [bmax, if_pos rfl] at h
      rcases hbr : bmax rest k with _ | m <;> rw [hbr] at h <;> simp at h
    · simp only [bmax, if_neg hk] at h
      rcases List.mem_cons.mp hs with heq | ht
      · exact hk ((Prod.mk.injEq _ _ _ _).mp heq).1.symm
      · exact ih h s ht

theorem bmax_spec (data : List (String × ℚ)) (a : String) (s : ℚ)
    (h : bmax data a = some s) :
    (∃ s0, (a, s0) ∈ data ∧ s = s0 * 100) ∧
    (∀ s0, (a, s0) ∈ data → s0 * 100 ≤ s) := by
  induction data generalizing s with
  | nil => simp [bmax] at h
  | cons item rest ih =>
    obtain ⟨k, w⟩ := item
    by_cases hk : k = a
    · subst hk
      simp only [bmax, if_pos rfl] at h
      rcases hbr : bmax rest k with _ | m
      · rw [hbr] at h
        have hs : s = w * 100 := by simpa using h.symm
        constructor
        · exact ⟨w, List.mem_cons_self _ _, hs⟩
        · intro s0 hs0
          rcases List.mem_cons.mp hs0 with heq | ht
          · rw [((Prod.mk.injEq _ _ _ _).mp heq).2, hs]
          · exact absurd ht (fun hh => bmax_none_not_mem rest k hbr s0 hh)
      · rw [hbr] at h
        have hs : max (w * 100) m = s := by simpa using h
        obtain ⟨hex, hub⟩ := ih m hbr
        constructor
        · rcases max_choice (w * 100) m with hc | hc
          · exact ⟨w, List.mem_cons_self _ _, by rw [← hs, hc]⟩
          · obtain ⟨s0, hs0, hm⟩ := hex
            exact ⟨s0, List.mem_cons_of_mem _ hs0, by rw [← hs, hc, hm]⟩
        · intro s0 hs0
          rcases List.mem_cons.mp hs0 with heq | ht
          · rw [((Prod.mk.injEq _ _ _ _).mp heq).2, ← hs]
            exact le_max_left _ _
          · calc s0 * 100 ≤ m := hub s0 ht
              _ ≤ max (w * 100) m := le_max_right _ _
              _ = s := hs
    · simp only [bmax, if_neg hk] at h
      obtain ⟨hex, hub⟩ := ih s h
      constructor
      · obtain ⟨s0, hs0, hm⟩ := hex
        exact ⟨s0, List.mem_cons_of_mem _ hs0, hm⟩
      · intro s0 hs0
        rcases List.mem_cons.mp hs0 with heq | ht
        · exact absurd ((Prod.mk.injEq _ _ _ _).mp heq).1.symm hk
        · exact hub s0 ht

theorem insertDesc_perm (x : String × ℚ) (l : List (String × ℚ)) :
    List.Perm (insertDesc x l) (x :: l) := by
  induction l with
  | nil => exact List.Perm.refl _
  | cons y ys ih =>
    unfold insertDesc
    by_cases hc : x.2 ≤ y.2
    · rw [if_pos hc]
      exact List.Perm.trans (List.Perm.cons y ih) (List.Perm.swap x y ys)
    · rw [if_neg hc]

theorem sortDesc_perm (l : List (String × ℚ)) : List.Perm (sortDesc l) l := by
  induction l with
  | nil => exact List.Perm.refl _
  | cons x xs ih =>
    exact List.Perm.trans (insertDesc_perm x _) (List.Perm.cons x ih)

theorem mem_insertDesc {x z : String × ℚ} {l : List (String × ℚ)} :
    z ∈ insertDesc x l ↔ z = x ∨ z ∈ l := by
  rw [List.Perm.mem_iff (insertDesc_perm x l)]
  simp

theorem pairwise_insertDesc (x : String × ℚ) (l : List (String × ℚ))
    (h : l.Pairwise (fun p q => q.2 ≤ p.2)) :
    (insertDesc x l).Pairwise (fun p q => q.2 ≤ p.2) := by
  induction l with
  | nil => simp [insertDesc]
  | cons y ys ih =>
    rcases List.pairwise_cons.mp h with ⟨hy, hys⟩
    unfold insertDesc
    by_cases hc : x.2 ≤ y.2
    · rw [if_pos hc]
      refine List.pairwise_cons.mpr ⟨?_, ih hys⟩
      intro z hz
      rcases mem_insertDesc.mp hz with rfl | hzys
      · exact hc
      · exact hy z hzys
    · rw [if_neg hc]
      refine List.pairwise_cons.mpr ⟨?_, h⟩
      intro z hz
      rcases List.mem_cons.mp hz with rfl | hzys
      · exact le_of_lt (not_le.mp hc)
      · exact le_trans (hy z hzys) (le_of_lt (not_le.mp hc))

theorem pairwise_sortDesc (l : List (String × ℚ)) :
    (sortDesc l).Pairwise (fun p q => q.2 ≤ p.2) := by
  induction l with
  | nil => simp [sortDesc]
  | cons x xs ih => exact pairwise_insertDesc x _ ih

theorem fbaAggregate_ne_nil (data : List (String × ℚ)) (hne : data ≠ []) :
    fbaAggregate data ≠ [] := by
  obtain ⟨p, rest, rfl⟩ := List.exists_cons_of_ne_nil hne
  obtain ⟨k, s⟩ := p
  intro hagg
  have h1 : lookupA (fbaAggregate ((k, s) :: rest)) k = bmax ((k, s) :: rest) k :=
    lookupA_fbaAggregate _ _
  rw [hagg] at h1
  simp only [lookupA, bmax, if_pos rfl] at h1
  rcases hbr : bmax rest k with _ | m <;> rw [hbr] at h1 <;> simp at h1

/-! ## C2: `find_best_agents` never returns an empty list -/

/-- C2: given the candidate rows the similarity RPC returned (at most
`top_n * 5` of them, its `match_count`; `none` = an exception occurred),
`find_best_agents` never returns an empty list; with an exception or zero
candidates it returns exactly `[("presaleskb", 50.0)]`; otherwise the result
is sorted descending by score, has at most `top_n` entries, and assigns each
listed agent the *maximum* (not average) `similarity * 100` over that agent's
candidate rows. -/
theorem find_best_agents_spec (candidates : Option (List (String × ℚ))) (topN : Nat)
    (hlen : ∀ data, candidates = some data → data.length ≤ topN * 5) :
    findBestAgents candidates topN ≠ [] ∧
    (candidates = none → findBestAgents candidates topN = [("presaleskb", 50)]) ∧
    (candidates = some [] → findBestAgents candidates topN = [("presaleskb", 50)]) ∧
    (∀ data, candidates = some data → data ≠ [] →
      (findBestAgents candidates topN).Pairwise (fun p q => q.2 ≤ p.2) ∧
      (findBestAgents candidates topN).length ≤ topN ∧
      ∀ p ∈ findBestAgents candidates topN,
        (∃ s0, (p.1, s0) ∈ data ∧ p.2 = s0 * 100) ∧
        (∀ s0, (p.1, s0) ∈ data → s0 * 100 ≤ p.2)) := by
  refine ⟨?_, ?_, ?_, ?_⟩
  · rcases hc : candidates with _ | data
    · simp [findBestAgents]
    · by_cases hd : data = []
      · subst hd
        simp [findBestAgents]
      · have hres : findBestAgents (some data) topN =
            (sortDesc (fbaAggregate data)).take topN := by
          simp [findBestAgents, hd]
        rw [hres]
        have hlen1 : data.length ≤ topN * 5 := hlen data hc
        have hpos : 0 < data.length := List.length_pos.mpr hd
        have htop : 0 < topN := by omega
        have hagg : fbaAggregate data ≠ [] := fbaAggregate_ne_nil data hd
        have haggpos : 0 < (fbaAggregate data).length := List.length_pos.mpr hagg
        have hslen : (sortDesc (fbaAggregate data)).length =
            (fbaAggregate data).length := (sortDesc_perm _).length_eq
        intro hnil
        have hlen0 := congrArg List.length hnil
        rw [List.length_take, hslen] at hlen0
        simp only [List.length_nil] at hlen0
        have hmin : 0 < min topN (fbaAggregate data).length :=
          lt_min_iff.mpr ⟨htop, haggpos⟩
        omega
  · intro h
    subst h
    rfl
  · intro h
    subst h
    simp [findBestAgents]
  · intro data hcand hne
    subst hcand
    have hres : findBestAgents (some data) topN =
        (sortDesc (fbaAggregate data)).take topN := by
      simp [findBestAgents, hne]
    rw [hres]
    refine ⟨?_, ?_, ?_⟩
    · exact List.Pairwise.sublist (List.take_sublist _ _) (pairwise_sortDesc _)
    · rw [List.length_take]
      exact min_le_left _ _
    · intro p hp
      obtain ⟨a, s⟩ := p
      have hp1 : (a, s) ∈ sortDesc (fbaAggregate data) := List.mem_of_mem_take hp
      have hp2 : (a, s) ∈ fbaAggregate data :=
        (List.Perm.mem_iff (sortDesc_perm _)).mp hp1
      have hl : lookupA (fbaAggregate data) a = some s :=
        (mem_iff_lookupA _ (keysND_fbaAggregate data) a s).mp hp2
      rw [lookupA_fbaAggregate] at hl
      exact bmax_spec data a s hl

/-- Candidate rows for the C2 witness: two agents, similarities 0.9 and 0.5. -/
def dataC2 : List (String × ℚ) := [("presaleskb", 9/10), ("socialmediakb", 1/2)]

/-- Witness for C2 at `dataC2` with `top_n = 3`. -/
theorem find_best_agents_spec_witness :
    (∀ data, (some dataC2 : Option (List (String × ℚ))) = some data →
      data.length ≤ 3 * 5) ∧
    (findBestAgents (some dataC2) 3 ≠ [] ∧
     ((some dataC2 : Option (List (String × ℚ))) = none →
       findBestAgents (some dataC2) 3 = [("presaleskb", 50)]) ∧
     ((some dataC2 : Option (List (String × ℚ))) = some [] →
       findBestAgents (some dataC2) 3 = [("presaleskb", 50)]) ∧
     (∀ data, (some dataC2 : Option (List (String × ℚ))) = some data → data ≠ [] →
       (findBestAgents (some dataC2) 3).Pairwise (fun p q => q.2 ≤ p.2) ∧
       (findBestAgents (some dataC2) 3).length ≤ 3 ∧
       ∀ p ∈ findBestAgents (some dataC2) 3,
         (∃ s0, (p.1, s0) ∈ data ∧ p.2 = s0 * 100) ∧
         (∀ s0, (p.1, s0) ∈ data → s0 * 100 ≤ p.2))) :=
  have hlen : ∀ data, (some dataC2 : Option (List (String × ℚ))) = some data →
      data.length ≤ 3 * 5 := by
    intro data h
    injection h with h2
    rw [← h2]
    decide
  ⟨hlen, find_best_agents_spec (some dataC2) 3 hlen⟩

end Squidgy
